import Mathlib

/-!
Verification of `src/netlify/functions/getAiReport.js`.

The file embeds the two components of the serverless function:

* `formatAiTextToHtml` (source lines 8-27): a chain of JavaScript regex
  substitutions.  Each substitution pass is translated to a function on
  `List Char` that follows the JS regex engine's semantics for the concrete
  pattern used by the source (left-to-right scan, lazy `.*?`, greedy `\s*`,
  multiline `^`/`$` anchors, advance-by-one on a failed match attempt).
  Recursive passes carry an explicit fuel argument equal to the input
  length; every recursive step consumes at least one input character, so
  the fuel can never run out and the functions stay structurally recursive
  (hence kernel-reducible, so concrete inputs can be settled by `decide`).

* `handler` (source lines 31-109): the exported request handler.  External
  collaborators (the JSON parser applied to `event.body`, the `fetch` call
  to the generative-language API) are inputs of the embedded function: the
  parse outcome is an argument, and `fetch` is a function argument mapping
  the constructed payload to an upstream outcome.  JavaScript exceptions
  are modelled with `Except String`: a `.error` result is an exception that
  escapes the handler (a rejected promise), `.ok` is a returned response.
  Because the request body is untrusted client JSON, the `skills` field is
  modelled as a JavaScript value (`SkillsField`) together with the exact
  truthiness / `.length` / `.join` semantics the source applies to it.
-/

set_option autoImplicit false

namespace GetAiReport

/-! ### JavaScript character classes used by the source's regexes -/

/-- Characters matched by JavaScript `\s` (the WhiteSpace and
LineTerminator productions). -/
def isJsWs (c : Char) : Bool :=
  c == ' ' || c == '\t' || c == '\n' || c == '\r' ||
  c == '\x0b' || c == '\x0c' || c == ' ' || c == ' ' ||
  (0x2000 ≤ c.toNat && c.toNat ≤ 0x200A) ||
  c == ' ' || c == ' ' || c == ' ' || c == ' ' ||
  c == '　' || c == '﻿'

/-- Characters treated as line terminators by JavaScript regexes:
`.` never matches them, and multiline `^`/`$` anchor around them. -/
def isJsLineTerm (c : Char) : Bool :=
  c == '\n' || c == '\r' || c == ' ' || c == ' '

/-! ### Source line 9: `text.replace(/\*\*(.*?)\*\*/g, '<h3>$1</h3>')` -/

/-- Scan for the closing `**` of a bold span: the lazy capture `(.*?)`
extends one character at a time (never across a line terminator, since `.`
does not match one) until `\*\*` matches.  Returns the captured characters
and the rest of the input after the closing `**`, or `none` when no closing
`**` occurs before a line terminator or the end of input. -/
def findClose : List Char → Option (List Char × List Char)
  | '*' :: '*' :: rest => some ([], rest)
  | c :: rest =>
    if isJsLineTerm c then none
    else (findClose rest).map fun p => (c :: p.1, p.2)
  | [] => none

/-- One global-replace scan for `/\*\*(.*?)\*\*/g → <h3>$1</h3>`.  At each
position: if `**` matches and a closing `**` follows on the same line,
emit the heading element and continue after the match; otherwise emit one
character and retry at the next position. -/
def replaceBoldFuel : Nat → List Char → List Char
  | 0, cs => cs
  | _ + 1, [] => []
  | fuel + 1, '*' :: '*' :: rest =>
    match findClose rest with
    | some (cap, rest') =>
      "<h3>".data ++ cap ++ "</h3>".data ++ replaceBoldFuel fuel rest'
    | none => '*' :: replaceBoldFuel fuel ('*' :: rest)
  | fuel + 1, c :: rest => c :: replaceBoldFuel fuel rest

def replaceBold (cs : List Char) : List Char :=
  replaceBoldFuel cs.length cs

/-! ### Source line 10: `html.replace(/^\s*[\*]\s(.*?)$/gm, '<li>$1</li>')` -/

/-- Attempt the match `^\s*[\*]\s(.*?)$` at a line-start position: consume
the maximal run of `\s` characters (greedy `\s*`; a shorter run would end
on a whitespace character, which `[\*]` cannot match, so no backtracking
arises), then a literal `*`, then one `\s` character, then capture the
lazy `(.*?)$` — the characters up to the next line terminator or the end.
Returns the replacement `<li>$1</li>`, whether the last character consumed
by the match is a line terminator (so that the next position scanned is
still a `^` position), and the unconsumed rest. -/
def tryStarMatch (cs : List Char) : Option (List Char × Bool × List Char) :=
  match cs.dropWhile isJsWs with
  | '*' :: s :: rest2 =>
    if isJsWs s then
      let cap := rest2.takeWhile (fun c => !isJsLineTerm c)
      let rest3 := rest2.dropWhile (fun c => !isJsLineTerm c)
      some ("<li>".data ++ cap ++ "</li>".data,
            cap.isEmpty && isJsLineTerm s, rest3)
    else none
  | _ => none

/-- One global multiline scan for the star-bullet substitution.  The
`atStart` flag records whether the current position is a `^` position
(start of input, or the previous input character was a line terminator);
a failed attempt advances one character, as the JS engine does. -/
def replaceStarLiFuel : Nat → Bool → List Char → List Char
  | 0, _, cs => cs
  | _ + 1, _, [] => []
  | fuel + 1, atStart, c :: rest =>
    if atStart then
      match tryStarMatch (c :: rest) with
      | some (repl, endNl, rest') => repl ++ replaceStarLiFuel fuel endNl rest'
      | none => c :: replaceStarLiFuel fuel (isJsLineTerm c) rest
    else
      c :: replaceStarLiFuel fuel (isJsLineTerm c) rest

def replaceStarLi (cs : List Char) : List Char :=
  replaceStarLiFuel cs.length true cs

/-! ### Source line 11: `html.replace(/^\s*\d\.\s(.*?)$/gm, '<li>$1</li>')` -/

/-- Attempt the match `^\s*\d\.\s(.*?)$` at a line-start position; same
shape as `tryStarMatch` with a single digit and a literal dot in place of
the `*`. -/
def tryNumMatch (cs : List Char) : Option (List Char × Bool × List Char) :=
  match cs.dropWhile isJsWs with
  | d :: '.' :: s :: rest2 =>
    if d.isDigit && isJsWs s then
      let cap := rest2.takeWhile (fun c => !isJsLineTerm c)
      let rest3 := rest2.dropWhile (fun c => !isJsLineTerm c)
      some ("<li>".data ++ cap ++ "</li>".data,
            cap.isEmpty && isJsLineTerm s, rest3)
    else none
  | _ => none

/-- One global multiline scan for the numbered-bullet substitution. -/
def replaceNumLiFuel : Nat → Bool → List Char → List Char
  | 0, _, cs => cs
  | _ + 1, _, [] => []
  | fuel + 1, atStart, c :: rest =>
    if atStart then
      match tryNumMatch (c :: rest) with
      | some (repl, endNl, rest') => repl ++ replaceNumLiFuel fuel endNl rest'
      | none => c :: replaceNumLiFuel fuel (isJsLineTerm c) rest
    else
      c :: replaceNumLiFuel fuel (isJsLineTerm c) rest

def replaceNumLi (cs : List Char) : List Char :=
  replaceNumLiFuel cs.length true cs

/-! ### Source lines 12-14: wrapping `<li>` runs in `<ul>...</ul>`
`html.replace(/(?:<li>(?:.|\n)*?<\/li>\s*)+/g, m => '<ul>' + m + '</ul>')` -/

/-- Scan for the first `</li>` closing tag: the lazy `(?:.|\n)*?` extends
one character at a time and matches every character except `\r`, ` `
and ` ` (those match neither `.` nor `\n`). -/
def findCloseLi : List Char → Option (List Char × List Char)
  | '<' :: '/' :: 'l' :: 'i' :: '>' :: rest => some ([], rest)
  | c :: rest =>
    if c == '\r' || c == ' ' || c == ' ' then none
    else (findCloseLi rest).map fun p => (c :: p.1, p.2)
  | [] => none

/-- Match the greedy `(?:<li>(?:.|\n)*?<\/li>\s*)+` at the current
position: one iteration is `<li>`, lazy content up to the first `</li>`,
then the maximal `\s*` run (the trailing whitespace is part of the match,
so it ends up inside the inserted `<ul>`), and iterations repeat as long as
another `<li>` follows directly.  Returns the matched characters and the
rest.  Each iteration consumes at least nine characters, so fuel equal to
the input length never runs out. -/
def matchLiRunFuel : Nat → List Char → Option (List Char × List Char)
  | 0, _ => none
  | fuel + 1, '<' :: 'l' :: 'i' :: '>' :: rest =>
    match findCloseLi rest with
    | some (mid, rest1) =>
      let ws := rest1.takeWhile isJsWs
      let rest2 := rest1.dropWhile isJsWs
      match matchLiRunFuel fuel rest2 with
      | some (more, rest3) =>
        some (("<li>".data ++ mid ++ "</li>".data ++ ws) ++ more, rest3)
      | none => some ("<li>".data ++ mid ++ "</li>".data ++ ws, rest2)
    | none => none
  | _ + 1, _ => none

/-- One global scan wrapping each maximal `<li>` run in a `<ul>` element. -/
def wrapUlFuel : Nat → List Char → List Char
  | 0, cs => cs
  | _ + 1, [] => []
  | fuel + 1, c :: rest =>
    match matchLiRunFuel (c :: rest).length (c :: rest) with
    | some (m, rest') => "<ul>".data ++ m ++ "</ul>".data ++ wrapUlFuel fuel rest'
    | none => c :: wrapUlFuel fuel rest

def wrapUl (cs : List Char) : List Char :=
  wrapUlFuel cs.length cs

/-! ### Source lines 15-26: literal global replacements
All remaining `.replace(...)` calls use patterns without anchors or
character classes, so each is a plain left-to-right, non-overlapping
replacement of a literal substring. -/

/-- Global replacement of a (non-empty) literal pattern, scanning left to
right; on a match the scan continues after the matched occurrence. -/
def replaceSubAllFuel (pat repl : List Char) : Nat → List Char → List Char
  | 0, cs => cs
  | _ + 1, [] => []
  | fuel + 1, c :: rest =>
    if !pat.isEmpty && pat.isPrefixOf (c :: rest) then
      repl ++ replaceSubAllFuel pat repl fuel ((c :: rest).drop pat.length)
    else
      c :: replaceSubAllFuel pat repl fuel rest

def replaceSubAll (pat repl cs : List Char) : List Char :=
  replaceSubAllFuel pat repl cs.length cs

/-! ### Source lines 8-28: the full formatter -/

/-- Embedding of `formatAiTextToHtml` (source lines 8-28): the substitution
passes applied in source order. -/
def formatAiTextToHtml (text : String) : String :=
  let html := replaceBold text.data
  let html := replaceStarLi html
  let html := replaceNumLi html
  let html := wrapUl html
  let html := replaceSubAll "\n\n".data "<br><br>".data html
  let html := replaceSubAll "\n".data " ".data html
  let html := replaceSubAll "<br><br>".data "</p><p>".data html
  let html := "<p>".data ++ html ++ "</p>".data
  let html := replaceSubAll "<p></p>".data "".data html
  let html := replaceSubAll "<p><ul>".data "<ul>".data html
  let html := replaceSubAll "</ul></p>".data "</ul>".data html
  let html := replaceSubAll "<p><h3>".data "<h3>".data html
  let html := replaceSubAll "</h3></p>".data "</h3>".data html
  let html := replaceSubAll "</h3><p>".data "</h3>".data html
  let html := replaceSubAll "</ul><p>".data "</ul>".data html
  String.mk html

/-- Number of positions of `cs` at which `pat` occurs (for the patterns
used below no two occurrences can overlap, so this is the occurrence
count). -/
def countOccur (pat : List Char) : List Char → Nat
  | [] => 0
  | c :: rest => (if pat.isPrefixOf (c :: rest) then 1 else 0) + countOccur pat rest

/-- Whether `pat` occurs somewhere in `cs`. -/
def occursIn (pat : List Char) : List Char → Bool
  | [] => pat.isEmpty
  | c :: rest => pat.isPrefixOf (c :: rest) || occursIn pat rest

/-! ### The request handler (source lines 31-109) -/

/-- The value of the `skills` field of the parsed request body.  The body
is untrusted client JSON, so the field can hold any JavaScript value; the
constructors cover the value shapes distinguishable by the operations the
source applies to the field (truthiness test via `||`, `.length === 0`,
`.join(', ')`).  Array elements are taken to be strings, as in the spec's
data model. -/
inductive SkillsField where
  | undef
  | nullVal
  | boolVal (b : Bool)
  | numVal (n : Int)
  | strVal (s : String)
  | arrVal (skills : List String)
  deriving DecidableEq

/-- JavaScript truthiness of a `skills` value (`undefined`, `null`,
`false`, `0`, `""` are falsy; every array and every other value here is
truthy). -/
def SkillsField.truthy : SkillsField → Bool
  | .undef => false
  | .nullVal => false
  | .boolVal b => b
  | .numVal n => n != 0
  | .strVal s => s != ""
  | .arrVal _ => true

/-- JavaScript `skills.length === 0` (source line 51): arrays and strings
have a numeric `.length`; on numbers and booleans `.length` is `undefined`,
and `undefined === 0` is `false`. -/
def SkillsField.lengthIsZero : SkillsField → Bool
  | .arrVal l => l.length == 0
  | .strVal s => s.length == 0
  | _ => false

/-- JavaScript `skills.join(sep)` (source line 59): defined on arrays; on
every other value here `.join` is `undefined` and the call throws
`TypeError: skills.join is not a function`. -/
def SkillsField.join (sep : String) : SkillsField → Except String String
  | .arrVal l => .ok (String.intercalate sep l)
  | _ => .error "skills.join is not a function"

/-- Outcome of the statements guarded by the inner `try` (source lines
44-49): `JSON.parse(event.body)` followed by the access `body.skills`.
`parseError` is the case where one of them throws (malformed JSON, or a
parse result such as `null` on which property access throws); `parsed f`
is the case where the access yields the value `f` (`undef` when the field
is missing). -/
inductive ParseOutcome where
  | parseError
  | parsed (skills : SkillsField)

/-- One part of the outbound payload (source lines 62/64): `{ text: ... }`. -/
structure PayloadPart where
  text : String
  deriving DecidableEq

/-- One entry of `contents` (source line 62): `{ parts: [...] }`. -/
structure PayloadContent where
  parts : List PayloadPart
  deriving DecidableEq

/-- The `systemInstruction` object (source lines 63-65). -/
structure SystemInstruction where
  parts : List PayloadPart
  deriving DecidableEq

/-- The payload POSTed to the generative-language API (source lines 61-66). -/
structure GeminiPayload where
  contents : List PayloadContent
  systemInstruction : SystemInstruction
  deriving DecidableEq

/-- One part of a candidate's content in the upstream response: the
optional-chained `...?.text` (source line 85). -/
structure RespPart where
  text : Option String

/-- A candidate's `content` object: optional `parts` list. -/
structure RespContent where
  parts : Option (List RespPart)

/-- One entry of the upstream `candidates` array. -/
structure Candidate where
  content : Option RespContent

/-- The JSON body of a successful upstream response (source line 82):
optional `candidates` array. -/
structure ApiResult where
  candidates : Option (List Candidate)

/-- The JSON body of a failed upstream response, as probed by
`errorBody.error?.message` (source line 79): the optionally-present
message string. -/
structure ApiErrorBody where
  errorMessage : Option String

/-- Outcome of `await fetch(...)` followed by `await response.json()`
(source lines 70-82), as seen from inside the `try` block:
`fetchFault msg` is a thrown error (network failure, or a response body
that is not JSON) with message `msg`; `respNotOk` is a response with
`response.ok` false; `respOk` is an `ok` response with its parsed body. -/
inductive UpstreamOutcome where
  | fetchFault (msg : String)
  | respNotOk (status : Nat) (errorBody : ApiErrorBody)
  | respOk (result : ApiResult)

/-- The response body returned by the handler; the source serializes it
with `JSON.stringify`, modelled structurally. -/
inductive ResponseBody where
  | errorBody (error : String)
  | htmlBody (html : String)
  deriving DecidableEq

/-- The handler's return value `{ statusCode, body }`. -/
structure HandlerResponse where
  statusCode : Nat
  body : ResponseBody
  deriving DecidableEq

/-- JavaScript `!GOOGLE_AI_API_KEY` (source line 35): the environment
variable is either unset (`undefined`) or a string, and the test is true
exactly when it is unset or the empty string. -/
def keyFalsy : Option String → Bool
  | none => true
  | some s => s == ""

/-- Source line 83: `result.candidates?.[0]`. -/
def firstCandidate (result : ApiResult) : Option Candidate :=
  result.candidates.bind List.head?

/-- Source line 85: `candidate.content?.parts?.[0]?.text`. -/
def candidateText (candidate : Candidate) : Option String :=
  ((candidate.content.bind RespContent.parts).bind List.head?).bind RespPart.text

/-- The system instruction string (source line 58). -/
def systemPrompt : String :=
  "You are a friendly and encouraging 4th-grade teaching assistant. A student just failed a test and needs help with the following skills. For each skill, please generate a simple, easy-to-understand mini-lesson. This lesson should include: 1. A simple definition of the skill. 2. A few tips or strategies to help them get the right answer next time. 3. A quick, simple example. Do not use external links or URLs."

/-- The body of the outer `try`/`catch` (source lines 69-108), given the
outcome of the upstream call.  Every `throw` inside the `try` (the
`API Error` throw on line 79 and the `Invalid response` throw on line 86),
and every error thrown by `fetch`/`response.json()` itself, lands in the
`catch` (lines 99-108), which returns status 500 with the error's message;
so this piece is total.  The guard on line 85 is
`!candidate || !candidate.content?.parts?.[0]?.text`: a missing text and
an empty-string text are both falsy and take the throw. -/
def tryBlock (upstream : UpstreamOutcome) : HandlerResponse :=
  match upstream with
  | .fetchFault msg => ⟨500, .errorBody msg⟩
  | .respNotOk status errorBody =>
    ⟨500, .errorBody ("API Error: " ++ toString status ++ " "
      ++ errorBody.errorMessage.getD "")⟩
  | .respOk result =>
    match firstCandidate result with
    | none => ⟨500, .errorBody "Invalid response from AI. No content found."⟩
    | some candidate =>
      match candidateText candidate with
      | none => ⟨500, .errorBody "Invalid response from AI. No content found."⟩
      | some t =>
        if t == "" then
          ⟨500, .errorBody "Invalid response from AI. No content found."⟩
        else
          ⟨200, .htmlBody (formatAiTextToHtml t)⟩

/-- Embedding of `handler` (source lines 31-109).  `apiKey` is the
environment value `process.env.GOOGLE_AI_API_KEY`; `event` is the outcome
of parsing the request body; `fetch` maps the payload the handler builds
to the outcome of the upstream call.  The result is `.ok response` when
the handler returns, and `.error msg` when an exception escapes the
handler (the returned promise rejects).  Note the source builds
`userQuery`/`payload` (lines 56-66, including the `skills.join` call) only
AFTER the validation gates but BEFORE entering the `try` block, so an
exception thrown there is not caught. -/
def handler (apiKey : Option String) (event : ParseOutcome)
    (fetch : GeminiPayload → UpstreamOutcome) : Except String HandlerResponse :=
  if keyFalsy apiKey then
    .ok ⟨500, .errorBody "API key is not configured on the server."⟩
  else
    match event with
    | .parseError => .ok ⟨400, .errorBody "Invalid request body."⟩
    | .parsed field =>
      let skills := if field.truthy then field else .arrVal []
      if skills.lengthIsZero then
        .ok ⟨400, .errorBody "No skills provided."⟩
      else
        match skills.join ", " with
        | .error e => .error e
        | .ok joined =>
          let userQuery := "Here are the skills I struggled with: " ++ joined
          let payload : GeminiPayload :=
            { contents := [⟨[⟨userQuery⟩]⟩],
              systemInstruction := ⟨[⟨systemPrompt⟩]⟩ }
          .ok (tryBlock (fetch payload))

/-- A `skills` value on which the handler cannot throw outside the `try`
block: every falsy value (replaced by `[]` at line 46) and every array. -/
def SkillsField.safe : SkillsField → Bool
  | .arrVal _ => true
  | f => !f.truthy

/-! ## Claims -/

/-- Claim C2: `formatAiTextToHtml` applied to `"**Fractions**\nDefinition
here."` produces the heading element containing `Fractions` immediately
followed by paragraph content containing `Definition here.`, and no
paragraph element wraps the heading: the exact output is
`<h3>Fractions</h3> Definition here.</p>`, which starts with the heading,
carries the definition text right after it, and contains no `<p>` opening
marker at all (the cleanup pass removed the `<p>` that the
wrap-in-paragraph step had put in front of the heading, leaving only the
trailing `</p>`). -/
theorem format_heading_unwrapped :
    formatAiTextToHtml "**Fractions**\nDefinition here."
      = "<h3>Fractions</h3> Definition here.</p>" ∧
    "<h3>Fractions</h3>".data.isPrefixOf
      (formatAiTextToHtml "**Fractions**\nDefinition here.").data = true ∧
    occursIn "Definition here.".data
      ((formatAiTextToHtml "**Fractions**\nDefinition here.").data.drop 18) = true ∧
    occursIn "<p>".data
      (formatAiTextToHtml "**Fractions**\nDefinition here.").data = false := by
  decide

/-- Claim C4: `formatAiTextToHtml` applied to `"* item one\n* item two"`
produces exactly one list container element wrapping exactly two list-item
elements, containing `item one` and `item two` in the original order: the
exact output is `<ul><li>item one</li> <li>item two</li></ul>`, with one
`<ul>`/`</ul>` pair and two `<li>`/`</li>` pairs. -/
theorem format_star_list_single_container :
    formatAiTextToHtml "* item one\n* item two"
      = "<ul><li>item one</li> <li>item two</li></ul>" ∧
    countOccur "<ul>".data (formatAiTextToHtml "* item one\n* item two").data = 1 ∧
    countOccur "</ul>".data (formatAiTextToHtml "* item one\n* item two").data = 1 ∧
    countOccur "<li>".data (formatAiTextToHtml "* item one\n* item two").data = 2 ∧
    countOccur "</li>".data (formatAiTextToHtml "* item one\n* item two").data = 2 := by
  decide

/-- Claim C5: `formatAiTextToHtml` applied to `"1. first\n2. second"`
shows the same list-wrapping behaviour as the star-bullet case: exactly
one list container wrapping exactly two list-item elements in the
original order, and the output uses exactly the same list-item markup as
the star-bullet input with the same item texts produces. -/
theorem format_numbered_list_same_as_star :
    formatAiTextToHtml "1. first\n2. second"
      = "<ul><li>first</li> <li>second</li></ul>" ∧
    formatAiTextToHtml "1. first\n2. second"
      = formatAiTextToHtml "* first\n* second" ∧
    countOccur "<ul>".data (formatAiTextToHtml "1. first\n2. second").data = 1 ∧
    countOccur "</ul>".data (formatAiTextToHtml "1. first\n2. second").data = 1 ∧
    countOccur "<li>".data (formatAiTextToHtml "1. first\n2. second").data = 2 ∧
    countOccur "</li>".data (formatAiTextToHtml "1. first\n2. second").data = 2 := by
  decide

/-- Claim C6: when the secret API key is absent or empty (the source's
`!GOOGLE_AI_API_KEY` test), the handler returns status 500 with error
message `API key is not configured on the server.` for every request body
and every upstream behaviour — the key check is the first gate, so the
body is not inspected before it. -/
theorem handler_missing_key_500 (k : Option String) (event : ParseOutcome)
    (fetch : GeminiPayload → UpstreamOutcome) (h : keyFalsy k = true) :
    handler k event fetch
      = .ok ⟨500, .errorBody "API key is not configured on the server."⟩ := by
  simp [handler, h]

theorem handler_missing_key_500_witness :
    handler none (.parsed (.arrVal ["fractions"])) (fun _ => .fetchFault "boom")
      = .ok ⟨500, .errorBody "API key is not configured on the server."⟩ ∧
    handler (some "") .parseError (fun _ => .fetchFault "boom")
      = .ok ⟨500, .errorBody "API key is not configured on the server."⟩ :=
  ⟨handler_missing_key_500 none (.parsed (.arrVal ["fractions"]))
      (fun _ => .fetchFault "boom") (by decide),
   handler_missing_key_500 (some "") .parseError
      (fun _ => .fetchFault "boom") (by decide)⟩

/-- Claim C7: when the key is configured, the body parses, and the skills
sequence is empty — either an explicit empty array (an empty array is
truthy, so it survives `body.skills || []`) or an absent field (falsy
`undefined`, defaulted to `[]`) — the handler returns status 400 with
error `No skills provided.`; the result is the same for every `fetch`, so
the upstream API is not consulted. -/
theorem handler_empty_skills_400 (k : Option String) (f : SkillsField)
    (fetch : GeminiPayload → UpstreamOutcome)
    (hk : keyFalsy k = false) (hf : f = .arrVal [] ∨ f = .undef) :
    handler k (.parsed f) fetch = .ok ⟨400, .errorBody "No skills provided."⟩ := by
  rcases hf with rfl | rfl <;>
    simp [handler, hk, SkillsField.truthy, SkillsField.lengthIsZero]

theorem handler_empty_skills_400_witness :
    handler (some "secret") (.parsed (.arrVal [])) (fun _ => .fetchFault "boom")
      = .ok ⟨400, .errorBody "No skills provided."⟩ ∧
    handler (some "secret") (.parsed .undef) (fun _ => .fetchFault "boom")
      = .ok ⟨400, .errorBody "No skills provided."⟩ :=
  ⟨handler_empty_skills_400 (some "secret") (.arrVal [])
      (fun _ => .fetchFault "boom") (by decide) (Or.inl rfl),
   handler_empty_skills_400 (some "secret") .undef
      (fun _ => .fetchFault "boom") (by decide) (Or.inr rfl)⟩

/-- Claim C8: for every non-empty sequence of skill strings accepted by
the handler, the user-query text inside the payload handed to the upstream
call is exactly `"Here are the skills I struggled with: "` followed by the
skills joined with `", "`: the run of the handler equals the `try`-block
applied to `fetch` of precisely that payload. -/
theorem handler_user_query_construction (k : Option String)
    (skills : List String) (fetch : GeminiPayload → UpstreamOutcome)
    (hk : keyFalsy k = false) (hs : skills ≠ []) :
    handler k (.parsed (.arrVal skills)) fetch
      = .ok (tryBlock (fetch
          { contents := [⟨[⟨"Here are the skills I struggled with: "
              ++ String.intercalate ", " skills⟩]⟩],
            systemInstruction := ⟨[⟨systemPrompt⟩]⟩ })) := by
  simp [handler, hk, SkillsField.truthy, SkillsField.lengthIsZero,
    SkillsField.join, hs]

theorem handler_user_query_construction_witness :
    handler (some "secret")
        (.parsed (.arrVal ["adding fractions", "long division"]))
        (fun p => .fetchFault (match p with
          | ⟨[⟨[⟨t⟩]⟩], _⟩ => t
          | _ => "unexpected payload shape"))
      = .ok ⟨500, .errorBody
          "Here are the skills I struggled with: adding fractions, long division"⟩ :=
  (handler_user_query_construction (some "secret")
      ["adding fractions", "long division"]
      (fun p => .fetchFault (match p with
        | ⟨[⟨[⟨t⟩]⟩], _⟩ => t
        | _ => "unexpected payload shape"))
      (by decide) (by decide)).trans (by rfl)

/-- Claim C3: whenever the upstream API responds with a non-success
status, the handler returns status 500 with body
`{error: "API Error: <status> <message>"}`, where the message is the
optionally-present `error.message` of the upstream body and defaults to
the empty string when absent (the error is still produced, carrying the
status code). -/
theorem handler_api_error_message (k : Option String) (skills : List String)
    (status : Nat) (em : Option String)
    (hk : keyFalsy k = false) (hs : skills ≠ []) :
    handler k (.parsed (.arrVal skills)) (fun _ => .respNotOk status ⟨em⟩)
      = .ok ⟨500, .errorBody
          ("API Error: " ++ toString status ++ " " ++ em.getD "")⟩ := by
  simp [handler, hk, SkillsField.truthy, SkillsField.lengthIsZero,
    SkillsField.join, hs, tryBlock]

theorem handler_api_error_message_witness :
    handler (some "secret") (.parsed (.arrVal ["fractions"]))
        (fun _ => .respNotOk 403 ⟨some "Forbidden"⟩)
      = .ok ⟨500, .errorBody "API Error: 403 Forbidden"⟩ ∧
    handler (some "secret") (.parsed (.arrVal ["fractions"]))
        (fun _ => .respNotOk 404 ⟨none⟩)
      = .ok ⟨500, .errorBody "API Error: 404 "⟩ :=
  ⟨(handler_api_error_message (some "secret") ["fractions"] 403
      (some "Forbidden") (by decide) (by decide)).trans (by rfl),
   (handler_api_error_message (some "secret") ["fractions"] 404
      none (by decide) (by decide)).trans (by rfl)⟩

/-- Claim C9: when the upstream API responds successfully but the response
carries no candidate (`candidates` absent or empty), or the first
candidate carries no text on the path `content.parts[0].text`, the handler
returns status 500 with error `Invalid response from AI. No content
found.`. -/
theorem handler_no_candidate_500 (k : Option String) (skills : List String)
    (result : ApiResult) (hk : keyFalsy k = false) (hs : skills ≠ [])
    (hr : firstCandidate result = none ∨
      ∃ c, firstCandidate result = some c ∧ candidateText c = none) :
    handler k (.parsed (.arrVal skills)) (fun _ => .respOk result)
      = .ok ⟨500, .errorBody "Invalid response from AI. No content found."⟩ := by
  rcases hr with hr | ⟨c, hc, ht⟩
  · simp [handler, hk, SkillsField.truthy, SkillsField.lengthIsZero,
      SkillsField.join, hs, tryBlock, hr]
  · simp [handler, hk, SkillsField.truthy, SkillsField.lengthIsZero,
      SkillsField.join, hs, tryBlock, hc, ht]

theorem handler_no_candidate_500_witness :
    handler (some "secret") (.parsed (.arrVal ["fractions"]))
        (fun _ => .respOk ⟨none⟩)
      = .ok ⟨500, .errorBody "Invalid response from AI. No content found."⟩ ∧
    handler (some "secret") (.parsed (.arrVal ["fractions"]))
        (fun _ => .respOk ⟨some [⟨some ⟨some [⟨none⟩]⟩⟩]⟩)
      = .ok ⟨500, .errorBody "Invalid response from AI. No content found."⟩ :=
  ⟨handler_no_candidate_500 (some "secret") ["fractions"] ⟨none⟩
      (by decide) (by decide) (Or.inl rfl),
   handler_no_candidate_500 (some "secret") ["fractions"]
      ⟨some [⟨some ⟨some [⟨none⟩]⟩⟩]⟩ (by decide) (by decide)
      (Or.inr ⟨⟨some ⟨some [⟨none⟩]⟩⟩, rfl, rfl⟩)⟩

/-- Claim C10: when the upstream API responds successfully and the first
candidate's first content part is present but its text is the empty
string, the handler returns status 500 with error `Invalid response from
AI. No content found.` — the guard on source line 85 tests JavaScript
truthiness, and the empty string is falsy just like a missing text — and
in particular not status 200 with an empty `html` field. -/
theorem handler_empty_text_500 (k : Option String) (skills : List String)
    (result : ApiResult) (c : Candidate)
    (hk : keyFalsy k = false) (hs : skills ≠ [])
    (hc : firstCandidate result = some c) (ht : candidateText c = some "") :
    handler k (.parsed (.arrVal skills)) (fun _ => .respOk result)
      = .ok ⟨500, .errorBody "Invalid response from AI. No content found."⟩ := by
  simp [handler, hk, SkillsField.truthy, SkillsField.lengthIsZero,
    SkillsField.join, hs, tryBlock, hc, ht]

theorem handler_empty_text_500_witness :
    handler (some "secret") (.parsed (.arrVal ["fractions"]))
        (fun _ => .respOk ⟨some [⟨some ⟨some [⟨some ""⟩]⟩⟩]⟩)
      = .ok ⟨500, .errorBody "Invalid response from AI. No content found."⟩ :=
  handler_empty_text_500 (some "secret") ["fractions"]
    ⟨some [⟨some ⟨some [⟨some ""⟩]⟩⟩]⟩ ⟨some ⟨some [⟨some ""⟩]⟩⟩
    (by decide) (by decide) rfl rfl

/-- Claim C1, counterexample: the claim asserts that a fault raised
anywhere during processing — explicitly including a fault while building
the upstream payload — is caught at the top level and turned into a
status-500 response, and that the handler never propagates a fault to its
caller.  The source, however, builds the payload (lines 56-66, including
the `skills.join(', ')` call) BEFORE entering the `try` block, so when the
parsed body carries a truthy non-array `skills` value — for example the
JSON body `{"skills": 5}`, which passes the `skills.length === 0` gate
because `(5).length` is `undefined` — the `skills.join` call throws
`TypeError: skills.join is not a function` outside every `try`, and the
handler's promise rejects instead of returning a response. -/
theorem handler_crash_on_nonarray_skills :
    handler (some "secret") (.parsed (.numVal 5))
        (fun _ => .fetchFault "network down")
      = .error "skills.join is not a function" := rfl

/-- Claim C1, amended: (1) for every invocation whose parsed `skills`
field is a sequence or a falsy value (and for every parse failure), the
handler never propagates a fault: it always returns a response; (2) any
fault raised during the upstream call or while processing its response is
caught at the top level and reported as status 500 with the fault's
message as the error field.  Only when the parsed `skills` field is a
truthy non-sequence value does a fault (thrown while building the upstream
payload, before the `try` block) escape the handler. -/
theorem handler_faults_caught_amended :
    (∀ (k : Option String) (event : ParseOutcome)
        (fetch : GeminiPayload → UpstreamOutcome),
      (∀ f, event = .parsed f → f.safe = true) →
      (handler k event fetch).isOk = true) ∧
    (∀ (k : Option String) (skills : List String) (msg : String),
      keyFalsy k = false → skills ≠ [] →
      handler k (.parsed (.arrVal skills)) (fun _ => .fetchFault msg)
        = .ok ⟨500, .errorBody msg⟩) := by
  constructor
  · intro k event fetch hsafe
    cases hk : keyFalsy k with
    | true => simp [handler, hk, Except.isOk, Except.toBool]
    | false =>
      cases event with
      | parseError => simp [handler, hk, Except.isOk, Except.toBool]
      | parsed f =>
        have hf := hsafe f rfl
        cases f with
        | arrVal l =>
          cases l with
          | nil =>
            simp [handler, hk, SkillsField.truthy, SkillsField.lengthIsZero,
              Except.isOk, Except.toBool]
          | cons a as =>
            simp [handler, hk, SkillsField.truthy, SkillsField.lengthIsZero,
              SkillsField.join, Except.isOk, Except.toBool]
        | undef =>
          simp [handler, hk, SkillsField.truthy, SkillsField.lengthIsZero,
            Except.isOk, Except.toBool]
        | nullVal =>
          simp [handler, hk, SkillsField.truthy, SkillsField.lengthIsZero,
            Except.isOk, Except.toBool]
        | boolVal b =>
          cases b with
          | false =>
            simp [handler, hk, SkillsField.truthy, SkillsField.lengthIsZero,
              Except.isOk, Except.toBool]
          | true => simp [SkillsField.safe, SkillsField.truthy] at hf
        | numVal n =>
          have hn : n = 0 := by
            simpa [SkillsField.safe, SkillsField.truthy] using hf
          simp [handler, hk, hn, SkillsField.truthy, SkillsField.lengthIsZero,
            Except.isOk, Except.toBool]
        | strVal s =>
          have hs : s = "" := by
            simpa [SkillsField.safe, SkillsField.truthy] using hf
          simp [handler, hk, hs, SkillsField.truthy, SkillsField.lengthIsZero,
            Except.isOk, Except.toBool]
  · intro k skills msg hk hs
    simp [handler, hk, SkillsField.truthy, SkillsField.lengthIsZero,
      SkillsField.join, hs, tryBlock]

theorem handler_faults_caught_amended_witness :
    (handler (some "secret") (.parsed (.arrVal ["fractions"]))
        (fun _ => .fetchFault "socket hang up")).isOk = true ∧
    handler (some "secret") (.parsed (.arrVal ["fractions"]))
        (fun _ => .fetchFault "socket hang up")
      = .ok ⟨500, .errorBody "socket hang up"⟩ :=
  ⟨handler_faults_caught_amended.1 (some "secret")
      (.parsed (.arrVal ["fractions"])) (fun _ => .fetchFault "socket hang up")
      (by intro f h; cases h; rfl),
   handler_faults_caught_amended.2 (some "secret") ["fractions"]
      "socket hang up" (by decide) (by decide)⟩

end GetAiReport
